import Mathlib

/-!
Shallow embedding of the check-runner logic of the mcp-oracledb-server
integration-test suite (test-cases/test_base.py and the controller test
scripts), together with proofs of the behavioural properties of its
result-classification policies, its fail-soft run loop, its pre-run
availability wait and its reporting/exit-code surface.

Conventions of the embedding:
- Response bodies are modelled as flat string-to-string association lists;
  the classification code only ever reads string-valued fields
  (response.get of status / message) and tests key membership (data).
- Python exceptions are modelled explicitly: fallible operations return
  Except, and the outcome of an HTTP call or of a check action is an
  inductive datum covering the raising case.
- Integer division in Python raises ZeroDivisionError on a zero divisor;
  this is modelled by pyDiv returning Except.
-/

namespace Mcp

/-- A JSON object as far as the classification logic reads it: a flat
string-keyed map with string values. -/
abbrev Body := List (String × String)

/-- Python dict.get k: the value at key k, or none. -/
def Body.get? (b : Body) (k : String) : Option String :=
  (b.find? (fun p => p.1 == k)).map Prod.snd

/-- Python membership test k in dict. -/
def Body.hasKey (b : Body) (k : String) : Bool :=
  (b.find? (fun p => p.1 == k)).isSome

/-- Character-list matching: does the pattern (first argument) occur at the
head of the text (second argument)? -/
def matchHere : List Char → List Char → Bool
  | [], _ => true
  | _ :: _, [] => false
  | p :: ps, c :: cs => p == c && matchHere ps cs

/-- Does the pattern occur anywhere in the text? -/
def findSub : List Char → List Char → Bool
  | pat, [] => matchHere pat []
  | pat, c :: cs => matchHere pat (c :: cs) || findSub pat cs

/-- Python substring test: pat in s. -/
def strHas (s pat : String) : Bool :=
  findSub pat.toList s.toList

/-- TestBase.assert_success (test-cases/test_base.py, lines 53-60):
passed iff the status code is 200 and the payload field status equals
the string success. -/
def assert_success (status_code : Nat) (response : Body) : Bool :=
  if status_code == 200 && response.get? "status" == some "success" then
    true
  else
    false

/-- TestOracleSecurityController.sec_assert_success
(test-cases/test_oracle_security_controller.py, lines 16-26): passed iff
the status code is 200 (payload ignored) or 404. -/
def sec_assert_success (status_code : Nat) (response : Body) : Bool :=
  if status_code == 200 then
    true
  else if status_code == 404 then
    true
  else
    false

/-- TestOracleAnalyticsController.analytics_assert_success
(test-cases/test_oracle_analytics_controller.py, lines 17-31): on 200,
passed when the payload has status success or a data key, or when it has
status error with a message containing SQL grammar; 404 passes; anything
else fails. -/
def analytics_assert_success (status_code : Nat) (response : Body) : Bool :=
  if status_code == 200 then
    if response.get? "status" == some "success" || response.hasKey "data" then
      true
    else if response.get? "status" == some "error" &&
        strHas ((response.get? "message").getD "") "SQL grammar" then
      true
    else
      false
  else if status_code == 404 then
    true
  else
    false

/-- The body of an HTTP response as received on the wire, before
make_request turns it into a status/dict pair. -/
inductive RespContent where
  | empty
  | json (body : Body)
  | invalid (raw : String)
deriving Repr, DecidableEq

/-- The outcome of attempting the underlying HTTP call: either the server
replied (with a status code and some body content), or the call raised
(connection failure, timeout, and so on). -/
inductive HttpOutcome where
  | reply (statusCode : Nat) (content : RespContent)
  | raised (msg : String)
deriving Repr, DecidableEq

/-- Python str.upper for the ASCII method names, as a character-wise map. -/
def pyUpper (s : String) : String :=
  String.mk (s.data.map Char.toUpper)

/-- The method dispatch of TestBase.make_request: method.upper() must be
one of GET, POST, PUT, DELETE, otherwise a ValueError is raised. -/
def supportedMethod (m : String) : Bool :=
  pyUpper m == "GET" || pyUpper m == "POST" ||
    pyUpper m == "PUT" || pyUpper m == "DELETE"

/-- Message of the exception raised by response.json() on a body that is
not valid JSON. -/
def jsonErr (raw : String) : String :=
  "JSONDecodeError: " ++ raw

/-- Message of the ValueError raised on an unsupported method. -/
def unsupportedErr (m : String) : String :=
  "Unsupported method: " ++ m

/-- TestBase.make_request (test-cases/test_base.py, lines 30-51): the whole
body sits in a try/except that converts every exception into the pair
(500, dict with an error key). An unsupported method raises before the
call; a reply with empty content yields the empty dict; a reply whose
content is not valid JSON makes response.json() raise, which the same
except clause converts to (500, error). -/
def make_request (method : String) (outcome : HttpOutcome) : Nat × Body :=
  if supportedMethod method then
    match outcome with
    | .raised msg => (500, [("error", msg)])
    | .reply code .empty => (code, [])
    | .reply code (.json b) => (code, b)
    | .reply code (.invalid raw) => (500, [("error", jsonErr raw)])
  else
    (500, [("error", unsupportedErr method)])

/-- How one registered check behaves when its action is invoked: it either
runs to completion with a boolean classification, or raises an unhandled
exception. -/
inductive CheckOutcome where
  | done (passed : Bool)
  | raised (msg : String)
deriving Repr, DecidableEq

/-- A registered check: a name and the behaviour of its action. -/
structure Check where
  name : String
  outcome : CheckOutcome
deriving Repr, DecidableEq

/-- The entry appended to test_results for one check: the test method
itself appends (name, result) when it completes; the except clause of the
run loop appends (name, False) when the action raises. -/
def checkEntry (c : Check) : String × Bool :=
  match c.outcome with
  | .done b => (c.name, b)
  | .raised _ => (c.name, false)

/-- The ordered result list accumulated by the run loop of run_all_tests
(test-cases/test_oracle_core_controller.py, lines 159-166): one entry per
registered check, in registration order. -/
def runResults (tests : List Check) : List (String × Bool) :=
  tests.map checkEntry

/-- The passed counter of the run loop: incremented exactly when a check
action completes and returns True; a raising check does not increment. -/
def runPassed : List Check → Nat
  | [] => 0
  | c :: cs =>
    (match c.outcome with
      | .done true => 1
      | _ => 0) + runPassed cs

/-- The aggregate report of one run: the ordered (name, passed) sequence,
the passed counter, and the total (len of the registered list). -/
structure RunReport where
  results : List (String × Bool)
  passedCount : Nat
  totalCount : Nat
deriving Repr, DecidableEq

/-- The finished report of a run that was not abandoned. -/
def runReport (tests : List Check) : RunReport :=
  { results := runResults tests
    passedCount := runPassed tests
    totalCount := tests.length }

/-- Outcome of run_all_tests: the run is abandoned when the pre-run
availability wait fails (return False before any check executes), else it
completes with a report and the boolean passed == total that the method
returns. -/
inductive RunOutcome where
  | abandoned
  | completed (report : RunReport) (allPassed : Bool)
deriving Repr, DecidableEq

/-- run_all_tests of a controller test class
(test-cases/test_oracle_core_controller.py, lines 137-178): abandon when
the service wait failed, otherwise execute every check under try/except
and return passed == total. -/
def run_all_tests (serviceAvailable : Bool) (tests : List Check) : RunOutcome :=
  if serviceAvailable then
    .completed (runReport tests) (runPassed tests == tests.length)
  else
    .abandoned

/-- The boolean run_all_tests returns to the caller: False for an
abandoned run, passed == total for a completed one. -/
def runReturn : RunOutcome → Bool
  | .abandoned => false
  | .completed _ allPassed => allPassed

/-- The process exit code of the script entry point
(test-cases/test_oracle_core_controller.py, lines 180-184):
exit(0 if success else 1). -/
def exitCode (o : RunOutcome) : Nat :=
  if runReturn o then 0 else 1

/-- Result of the availability wait: the boolean it returns, the number of
health probes it issued, and the list of backoff sleeps (in seconds) it
performed between attempts. -/
structure WaitOutcome where
  ok : Bool
  attempts : Nat
  sleeps : List Nat
deriving Repr, DecidableEq

/-- The loop body of TestBase.wait_for_service (test-cases/test_base.py,
lines 82-98), with the remaining iteration count made explicit: at each
attempt the health endpoint is probed (make_request never raises, so the
probe is just a status code); status 200 returns True at once; otherwise,
when the attempt is not the last one, the loop sleeps 2 seconds and goes
on; when the iterations are exhausted it returns False. The fuel argument
is maxAttempts minus the current attempt index. -/
def waitAux (probe : Nat → Nat) (maxAttempts : Nat) : Nat → Nat → WaitOutcome
  | _, 0 => ⟨false, maxAttempts, []⟩
  | attempt, fuel + 1 =>
    if probe attempt == 200 then
      ⟨true, attempt + 1, []⟩
    else
      let rest := waitAux probe maxAttempts (attempt + 1) fuel
      ⟨rest.ok, rest.attempts,
        if attempt < maxAttempts - 1 then 2 :: rest.sleeps else rest.sleeps⟩

/-- TestBase.wait_for_service with its default of 30 attempts, starting at
attempt 0 with full fuel. -/
def wait_for_service (probe : Nat → Nat) : WaitOutcome :=
  waitAux probe 30 0 30

/-- The guard at the top of every controller run_all_tests
(test-cases/test_oracle_core_controller.py, lines 144-147): the checks run
only when wait_for_service returned True. -/
def run_with_wait (probe : Nat → Nat) (tests : List Check) : RunOutcome :=
  run_all_tests (wait_for_service probe).ok tests

/-- Python true division: raises ZeroDivisionError on a zero divisor. -/
def pyDiv (a b : Nat) : Except String Rat :=
  if b = 0 then
    .error "ZeroDivisionError: division by zero"
  else
    .ok ((a : Rat) / (b : Rat))

/-- The success-rate computation of
MasterTestRunner.generate_final_report (test-cases/run_all_tests.py,
line 103): success_rate = (passed / total) * 100, with no guard on a zero
total. -/
def generate_final_report (passed total : Nat) : Except String Rat :=
  match pyDiv passed total with
  | .error e => .error e
  | .ok r => .ok (r * 100)

/-- How one registered suite behaves under the try/except of
MasterTestRunner.run_all_tests: it either returns a boolean, or crashes
(the except clause records success False). -/
inductive SuiteBehavior where
  | ok (success : Bool)
  | crash (msg : String)
deriving Repr, DecidableEq

/-- The success recorded for a suite: its returned boolean, or False when
it crashed. -/
def suiteSuccess : SuiteBehavior → Bool
  | .ok b => b
  | .crash _ => false

/-- MasterTestRunner.run_all_tests (test-cases/run_all_tests.py, lines
29-87): count the suites whose runs succeeded, then call
generate_final_report (whose division propagates as an exception on a
zero suite total), then return (passed, total, rate, passed == total). -/
def masterRun (suites : List SuiteBehavior) : Except String (Nat × Nat × Rat × Bool) :=
  let total := suites.length
  let passed := (suites.filter (fun s => suiteSuccess s)).length
  match generate_final_report passed total with
  | .error e => .error e
  | .ok rate => .ok (passed, total, rate, passed == total)

/-- main of test-cases/run_all_tests.py (lines 126-138):
sys.exit(0 if success else 1) on the boolean masterRun returned; an
uncaught ZeroDivisionError propagates instead. -/
def masterExit (suites : List SuiteBehavior) : Except String Nat :=
  match masterRun suites with
  | .error e => .error e
  | .ok (_, _, _, success) => .ok (if success then 0 else 1)

/-- One record of ComprehensiveTestRunner.results
(test-cases/run_all_controller_tests.py): the suite success flag and the
test counts parsed from its output. -/
structure SuiteRec where
  success : Bool
  test_count : Nat
  passed_count : Nat
deriving Repr, DecidableEq

/-- The two pass-rate computations of
ComprehensiveTestRunner.print_detailed_summary
(test-cases/run_all_controller_tests.py, lines 132-141): the suite rate
divides by len(results) unguarded; the individual-test rate is computed
only under the guard total_tests > 0. -/
def summaryRates (results : List SuiteRec) : Except String (Rat × Option Rat) :=
  let totalSuites := results.length
  let passedSuites := (results.filter (fun r => r.success)).length
  let totalTests := (results.map (fun r => r.test_count)).sum
  let totalPassedTests := (results.map (fun r => r.passed_count)).sum
  match pyDiv passedSuites totalSuites with
  | .error e => .error e
  | .ok r1 =>
    if totalTests > 0 then
      match pyDiv totalPassedTests totalTests with
      | .error e => .error e
      | .ok r2 => .ok (r1 * 100, some (r2 * 100))
    else
      .ok (r1 * 100, none)

/-! Helper lemmas about the run loop. -/

theorem checkEntry_fst (c : Check) : (checkEntry c).1 = c.name := by
  cases c with
  | mk name outcome => cases outcome <;> rfl

theorem runResults_length (tests : List Check) :
    (runResults tests).length = tests.length := by
  simp [runResults]

theorem runPassed_eq_filter (tests : List Check) :
    runPassed tests = ((runResults tests).filter (fun r => r.2)).length := by
  induction tests with
  | nil => rfl
  | cons c cs ih =>
    cases c with
    | mk name outcome =>
      cases outcome with
      | done b =>
        cases b <;>
          simp [runPassed, runResults, checkEntry, List.filter_cons] <;>
          simp [runResults] at ih <;> omega
      | raised m =>
        simp [runPassed, runResults, checkEntry, List.filter_cons]
        simpa [runResults] using ih

theorem runPassed_le (tests : List Check) : runPassed tests ≤ tests.length := by
  rw [runPassed_eq_filter]
  calc ((runResults tests).filter (fun r => r.2)).length
      ≤ (runResults tests).length := List.length_filter_le _ _
    _ = tests.length := runResults_length tests

theorem filter_lt_of_false (l : List (String × Bool)) (i : Nat) (p : String × Bool)
    (hi : l[i]? = some p) (hp : p.2 = false) :
    (l.filter (fun r => r.2)).length < l.length := by
  induction l generalizing i with
  | nil => simp at hi
  | cons a l ih =>
    cases i with
    | zero =>
      simp at hi
      subst hi
      simp [List.filter_cons, hp]
      exact Nat.lt_succ_of_le (List.length_filter_le _ _)
    | succ j =>
      simp at hi
      have hlt := ih j hi
      by_cases ha : a.2 <;> simp [List.filter_cons, ha] <;> omega

/-! Helper lemmas about the availability-wait loop. -/

theorem waitAux_ok_iff (p : Nat → Nat) (M : Nat) :
    ∀ fuel a, (waitAux p M a fuel).ok = true ↔
      ∃ i, a ≤ i ∧ i < a + fuel ∧ p i = 200 := by
  intro fuel
  induction fuel with
  | zero =>
    intro a
    simp only [waitAux]
    constructor
    · intro h; exact absurd h (by simp)
    · rintro ⟨i, h1, h2, _⟩; omega
  | succ f ih =>
    intro a
    by_cases h : p a = 200
    · have hb : (p a == 200) = true := by simp [h]
      simp only [waitAux, hb, if_true]
      constructor
      · intro _; exact ⟨a, le_refl a, by omega, h⟩
      · intro _; trivial
    · have hb : (p a == 200) = false := by simp [h]
      simp only [waitAux, hb, Bool.false_eq_true, if_false]
      rw [ih (a + 1)]
      constructor
      · rintro ⟨i, h1, h2, h3⟩
        exact ⟨i, by omega, by omega, h3⟩
      · rintro ⟨i, h1, h2, h3⟩
        refine ⟨i, ?_, by omega, h3⟩
        rcases Nat.eq_or_lt_of_le h1 with he | hl
        · exact absurd (he ▸ h3) h
        · omega

theorem waitAux_attempts_le (p : Nat → Nat) (M : Nat) :
    ∀ fuel a, a + fuel ≤ M → (waitAux p M a fuel).attempts ≤ M := by
  intro fuel
  induction fuel with
  | zero => intro a _; simp [waitAux]
  | succ f ih =>
    intro a h
    by_cases hp : p a = 200
    · have hb : (p a == 200) = true := by simp [hp]
      simp only [waitAux, hb, if_true]
      omega
    · have hb : (p a == 200) = false := by simp [hp]
      simp only [waitAux, hb, Bool.false_eq_true, if_false]
      exact ih (a + 1) (by omega)

theorem waitAux_first (p : Nat → Nat) (M : Nat) :
    ∀ fuel a i, a ≤ i → i < a + fuel → i < M → p i = 200 →
      (∀ j, a ≤ j → j < i → p j ≠ 200) →
      waitAux p M a fuel = ⟨true, i + 1, List.replicate (i - a) 2⟩ := by
  intro fuel
  induction fuel with
  | zero => intro a i h1 h2 _ _ _; omega
  | succ f ih =>
    intro a i h1 h2 hM hp hprev
    rcases Nat.eq_or_lt_of_le h1 with he | hl
    · subst he
      have hb : (p a == 200) = true := by simp [hp]
      simp [waitAux, hb]
    · have hpa : p a ≠ 200 := hprev a (le_refl a) hl
      have hb : (p a == 200) = false := by simp [hpa]
      have hrest := ih (a + 1) i hl (by omega) hM hp
        (fun j hj1 hj2 => hprev j (by omega) hj2)
      simp only [waitAux, hb, Bool.false_eq_true, if_false, hrest]
      have hcond : a < M - 1 := by omega
      simp only [hcond, if_true]
      have hsub : i - a = (i - (a + 1)) + 1 := by omega
      rw [hsub, List.replicate_succ]

theorem waitAux_exhaust (p : Nat → Nat) (M : Nat) :
    ∀ fuel a, a + fuel = M → (∀ i, a ≤ i → i < M → p i ≠ 200) →
      waitAux p M a fuel = ⟨false, M, List.replicate (M - 1 - a) 2⟩ := by
  intro fuel
  induction fuel with
  | zero =>
    intro a h _
    have hz : M - 1 - a = 0 := by omega
    simp [waitAux, hz]
  | succ f ih =>
    intro a h hall
    have hpa : p a ≠ 200 := hall a (le_refl a) (by omega)
    have hb : (p a == 200) = false := by simp [hpa]
    have hrest := ih (a + 1) (by omega) (fun i h1 h2 => hall i (by omega) h2)
    simp only [waitAux, hb, Bool.false_eq_true, if_false, hrest]
    by_cases hc : a < M - 1
    · simp only [hc, if_true]
      have hsub : M - 1 - a = (M - 1 - (a + 1)) + 1 := by omega
      rw [hsub, List.replicate_succ]
    · simp only [hc, if_false]
      have h1 : M - 1 - a = 0 := by omega
      have h2 : M - 1 - (a + 1) = 0 := by omega
      rw [h1, h2]

/-! Claim theorems. -/

/-- Claim C1, counterexample: the claim says a 404 remote result is never
classified as failed, for every check; but a check classified with the
base TestBase.assert_success yields passed false on status 404 even when
the payload reports success. -/
theorem C1_counterexample :
    assert_success 404 [("status", "success")] = false := by
  rfl

/-- Claim C1 (amended): the 404 tolerance holds for the controller-specific
policies - sec_assert_success passes every 200 and every 404 response, and
analytics_assert_success passes every 404 - but not for the base
TestBase.assert_success, which classifies every 404 response as failed. -/
theorem C1_tolerant_policy_amended (b : Body) :
    sec_assert_success 200 b = true ∧
    sec_assert_success 404 b = true ∧
    analytics_assert_success 404 b = true ∧
    assert_success 404 b = false := by
  exact ⟨rfl, rfl, rfl, rfl⟩

/-- Claim C2: no exception escapes the run loop. For every registered
check list, run_all_tests on an available service yields a completed
report; a check whose action raises is captured as exactly one recorded
entry, with passed false, at its own position, and every registered check
has exactly one recorded entry (so all subsequent checks still execute). -/
theorem C2_run_fail_soft (tests : List Check) (i : Nat) (c : Check) (msg : String)
    (hi : tests[i]? = some c) (hr : c.outcome = CheckOutcome.raised msg) :
    (∃ rep ap, run_all_tests true tests = RunOutcome.completed rep ap) ∧
    (runResults tests)[i]? = some (c.name, false) ∧
    (runResults tests).length = tests.length := by
  refine ⟨⟨runReport tests, _, rfl⟩, ?_, runResults_length tests⟩
  rw [runResults, List.getElem?_map, hi]
  simp [checkEntry, hr]

/-- Claim C2 witness: a three-check run whose middle check raises. -/
theorem C2_run_fail_soft_witness :
    (∃ rep ap,
      run_all_tests true
        [⟨"a", CheckOutcome.done true⟩, ⟨"b", CheckOutcome.raised "boom"⟩,
         ⟨"c", CheckOutcome.done false⟩] = RunOutcome.completed rep ap) ∧
    (runResults
        [⟨"a", CheckOutcome.done true⟩, ⟨"b", CheckOutcome.raised "boom"⟩,
         ⟨"c", CheckOutcome.done false⟩])[1]? = some ("b", false) ∧
    (runResults
        [⟨"a", CheckOutcome.done true⟩, ⟨"b", CheckOutcome.raised "boom"⟩,
         ⟨"c", CheckOutcome.done false⟩]).length = 3 :=
  C2_run_fail_soft _ 1 ⟨"b", CheckOutcome.raised "boom"⟩ "boom" rfl rfl

/-- Claim C3: for every registered check list of length N, the finished
report has totalCount N, its recorded sequence has exactly N entries, and
the entries carry the registered names in registration order, regardless
of how the checks behave. -/
theorem C3_report_counts (tests : List Check) :
    (runReport tests).totalCount = tests.length ∧
    (runReport tests).results.length = tests.length ∧
    (runReport tests).results.map Prod.fst = tests.map Check.name := by
  refine ⟨rfl, runResults_length tests, ?_⟩
  show (runResults tests).map Prod.fst = tests.map Check.name
  rw [runResults, List.map_map]
  have h : Prod.fst ∘ checkEntry = Check.name := funext checkEntry_fst
  rw [h]

/-- Claim C4: the passed counter of a completed run equals the number of
recorded entries whose passed field is true, and it always lies between 0
and the total count. -/
theorem C4_passed_count (tests : List Check) :
    (runReport tests).passedCount =
      ((runReport tests).results.filter (fun r => r.2)).length ∧
    0 ≤ (runReport tests).passedCount ∧
    (runReport tests).passedCount ≤ (runReport tests).totalCount :=
  ⟨runPassed_eq_filter tests, Nat.zero_le _, runPassed_le tests⟩

/-- Claim C5, counterexample: the claim says a success status with a
payload indicating an operation error is classified failed unless the
status is 404; but analytics_assert_success classifies a 200 response
whose error message mentions SQL grammar as passed. -/
theorem C5_counterexample :
    analytics_assert_success 200
      [("status", "error"), ("message", "bad SQL grammar in query")] = true := by
  rfl

/-- Claim C5 (amended): a 200 response with a payload indicating an
operation error is classified failed by the base assert_success, and by
analytics_assert_success provided the payload has no data key and its
error message does not contain SQL grammar; sec_assert_success ignores the
payload entirely and classifies every 200 response as passed. -/
theorem C5_business_failure_amended (b : Body)
    (he : b.get? "status" = some "error")
    (hd : b.hasKey "data" = false)
    (hm : strHas ((b.get? "message").getD "") "SQL grammar" = false) :
    assert_success 200 b = false ∧
    analytics_assert_success 200 b = false ∧
    sec_assert_success 200 b = true := by
  refine ⟨?_, ?_, rfl⟩
  · simp [assert_success, he]
  · simp [analytics_assert_success, he, hd, hm]

/-- Claim C5 witness: a concrete 200 response carrying an error payload. -/
theorem C5_business_failure_amended_witness :
    assert_success 200 [("status", "error"), ("message", "boom")] = false ∧
    analytics_assert_success 200 [("status", "error"), ("message", "boom")] = false ∧
    sec_assert_success 200 [("status", "error"), ("message", "boom")] = true :=
  C5_business_failure_amended _ rfl rfl rfl

/-- Claim C6, counterexample: the claim says the pass-rate computation is
guarded so a zero total never produces a division error; but on an empty
registered suite list, MasterTestRunner computes totals of 0 and 0 and its
generate_final_report divides by the zero total, raising
ZeroDivisionError, so the run does not even complete. -/
theorem C6_counterexample :
    masterRun [] = Except.error "ZeroDivisionError: division by zero" := by
  rfl

/-- Claim C6 (amended): the suite pass-rate computation is not guarded
against a zero total - an empty suite or result list makes it raise
ZeroDivisionError - but on every nonempty suite list (and the configured
runners always register a fixed nonempty list) the rate computations
complete without a division error, and the individual-tests rate of
print_detailed_summary is explicitly guarded by the total_tests > 0
check. -/
theorem C6_rate_guard_amended (suites : List SuiteBehavior) (recs : List SuiteRec)
    (hs : suites ≠ []) (hr : recs ≠ []) :
    (∃ v, masterRun suites = Except.ok v) ∧
    (∃ v, summaryRates recs = Except.ok v) ∧
    masterRun [] = Except.error "ZeroDivisionError: division by zero" := by
  have h1 : suites.length ≠ 0 := by
    simpa [List.length_eq_zero] using hs
  have h2 : recs.length ≠ 0 := by
    simpa [List.length_eq_zero] using hr
  refine ⟨?_, ?_, rfl⟩
  · unfold masterRun generate_final_report pyDiv
    simp only [h1, if_false]
    exact ⟨_, rfl⟩
  · unfold summaryRates pyDiv
    by_cases hT : (recs.map (fun r => r.test_count)).sum > 0
    · have hT0 : (recs.map (fun r => r.test_count)).sum ≠ 0 := by omega
      simp only [h2, hT, hT0, if_false, if_true]
      exact ⟨_, rfl⟩
    · simp only [h2, hT, if_false]
      exact ⟨_, rfl⟩

/-- Claim C6 witness: a singleton suite list and a singleton result
record. -/
theorem C6_rate_guard_amended_witness :
    (∃ v, masterRun [SuiteBehavior.ok true] = Except.ok v) ∧
    (∃ v, summaryRates [⟨true, 2, 1⟩] = Except.ok v) ∧
    masterRun [] = Except.error "ZeroDivisionError: division by zero" :=
  C6_rate_guard_amended [SuiteBehavior.ok true] [⟨true, 2, 1⟩]
    (List.cons_ne_nil _ _) (List.cons_ne_nil _ _)

/-- Claim C7: a completed run exits 0 exactly when the passed count equals
the total count; an abandoned run exits 1; a completed run with at least
one failed recorded entry exits 1; and the master runner exits 0 exactly
when every registered suite succeeded. -/
theorem C7_exit_code (tests : List Check) (suites : List SuiteBehavior)
    (i : Nat) (p : String × Bool) :
    (exitCode (run_all_tests true tests) = 0 ↔
      (runReport tests).passedCount = (runReport tests).totalCount) ∧
    exitCode (run_all_tests false tests) = 1 ∧
    ((runResults tests)[i]? = some p → p.2 = false →
      exitCode (run_all_tests true tests) = 1) ∧
    (suites ≠ [] →
      (masterExit suites = Except.ok 0 ↔
        (suites.filter (fun s => suiteSuccess s)).length = suites.length)) := by
  refine ⟨?_, rfl, ?_, ?_⟩
  · by_cases h : runPassed tests = tests.length <;>
      simp [run_all_tests, exitCode, runReturn, runReport, h]
  · intro hi hp
    have hlt : ((runResults tests).filter (fun r => r.2)).length <
        (runResults tests).length := filter_lt_of_false _ i p hi hp
    rw [runResults_length] at hlt
    have hne : runPassed tests ≠ tests.length := by
      rw [runPassed_eq_filter]
      omega
    simp [run_all_tests, exitCode, runReturn, hne]
  · intro hs
    have h1 : suites.length ≠ 0 := by
      simpa [List.length_eq_zero] using hs
    unfold masterExit masterRun generate_final_report pyDiv
    simp only [h1, if_false]
    by_cases h : (suites.filter (fun s => suiteSuccess s)).length = suites.length <;>
      simp [h]

/-- Claim C7 witness: a run with a failed check exits 1, and a master run
whose single suite succeeded exits 0. -/
theorem C7_exit_code_witness :
    exitCode (run_all_tests true
      [⟨"a", CheckOutcome.done true⟩, ⟨"b", CheckOutcome.done false⟩]) = 1 ∧
    (masterExit [SuiteBehavior.ok true] = Except.ok 0 ↔
      (([SuiteBehavior.ok true]).filter (fun s => suiteSuccess s)).length =
        ([SuiteBehavior.ok true]).length) :=
  ⟨(C7_exit_code [⟨"a", CheckOutcome.done true⟩, ⟨"b", CheckOutcome.done false⟩]
      [] 1 ("b", false)).2.2.1 rfl rfl,
   (C7_exit_code [] [SuiteBehavior.ok true] 0 ("b", false)).2.2.2
      (List.cons_ne_nil _ _)⟩

/-- Claim C8: every classification policy is a deterministic pure function
of the (statusCode, body) pair: two invocations on equal pairs yield equal
classifications; the embedding is pure because the source functions read
no state beyond their arguments. -/
theorem C8_policy_deterministic (s1 s2 : Nat) (b1 b2 : Body)
    (hs : s1 = s2) (hb : b1 = b2) :
    assert_success s1 b1 = assert_success s2 b2 ∧
    sec_assert_success s1 b1 = sec_assert_success s2 b2 ∧
    analytics_assert_success s1 b1 = analytics_assert_success s2 b2 := by
  subst hs
  subst hb
  exact ⟨rfl, rfl, rfl⟩

/-- Claim C8 witness: the policies applied twice to one concrete pair. -/
theorem C8_policy_deterministic_witness :
    assert_success 200 [("status", "success")] =
      assert_success 200 [("status", "success")] ∧
    sec_assert_success 200 [("status", "success")] =
      sec_assert_success 200 [("status", "success")] ∧
    analytics_assert_success 200 [("status", "success")] =
      analytics_assert_success 200 [("status", "success")] :=
  C8_policy_deterministic 200 200 [("status", "success")] [("status", "success")]
    rfl rfl

/-- Claim C9: the availability wait issues at most 30 probes; it returns
True exactly when one of the first 30 probes yields status 200, stopping
at the first such probe after one 2-second backoff per preceding failed
attempt; when all 30 probes fail it returns False after 29 backoffs, and
the run is then abandoned with no registered check executed. -/
theorem C9_wait_bounded (probe : Nat → Nat) (tests : List Check) (i : Nat) :
    (wait_for_service probe).attempts ≤ 30 ∧
    ((wait_for_service probe).ok = true ↔ ∃ j, j < 30 ∧ probe j = 200) ∧
    (i < 30 → probe i = 200 → (∀ j, j < i → probe j ≠ 200) →
      wait_for_service probe = ⟨true, i + 1, List.replicate i 2⟩) ∧
    ((∀ j, j < 30 → probe j ≠ 200) →
      wait_for_service probe = ⟨false, 30, List.replicate 29 2⟩ ∧
      run_with_wait probe tests = RunOutcome.abandoned) := by
  refine ⟨waitAux_attempts_le probe 30 30 0 (by omega), ?_, ?_, ?_⟩
  · rw [wait_for_service, waitAux_ok_iff]
    constructor
    · rintro ⟨j, _, h2, h3⟩
      exact ⟨j, by omega, h3⟩
    · rintro ⟨j, h1, h2⟩
      exact ⟨j, Nat.zero_le j, by omega, h2⟩
  · intro h1 h2 h3
    have hw := waitAux_first probe 30 30 0 i (Nat.zero_le i) (by omega) h1 h2
      (fun j _ hj => h3 j hj)
    simpa [wait_for_service] using hw
  · intro hall
    have hw := waitAux_exhaust probe 30 30 0 (by omega) (fun j _ hj => hall j hj)
    refine ⟨by simpa [wait_for_service] using hw, ?_⟩
    simp [run_with_wait, wait_for_service, hw, run_all_tests]

/-- Claim C9 witness: a service that answers 200 on the third probe, and a
service that never answers 200. -/
theorem C9_wait_bounded_witness :
    wait_for_service (fun j => if j = 2 then 200 else 500) =
      ⟨true, 3, List.replicate 2 2⟩ ∧
    run_with_wait (fun _ => 503) [] = RunOutcome.abandoned :=
  ⟨(C9_wait_bounded (fun j => if j = 2 then 200 else 500) [] 2).2.2.1
      (by omega) (by simp)
      (by
        intro j hj
        have hne : j ≠ 2 := by omega
        simp [hne]),
   ((C9_wait_bounded (fun _ => 503) [] 0).2.2.2 (fun j _ => by omega)).2⟩

/-- Claim C10: make_request is total - every raised exception (connection
failure, timeout, an unparseable non-empty body, an unsupported method) is
converted into the pair of status 500 and an error dict, which makes such
failures indistinguishable from a genuine server 500 carrying the same
payload; an empty response body yields the empty dict, and a valid JSON
body is returned unchanged with its status. -/
theorem C10_make_request_total (m msg raw : String) (code : Nat) (b : Body)
    (o : HttpOutcome) (hm : supportedMethod m = true) :
    make_request m (HttpOutcome.raised msg) = (500, [("error", msg)]) ∧
    make_request m (HttpOutcome.reply code (RespContent.invalid raw)) =
      (500, [("error", jsonErr raw)]) ∧
    make_request m (HttpOutcome.reply code RespContent.empty) = (code, ([] : Body)) ∧
    make_request m (HttpOutcome.reply code (RespContent.json b)) = (code, b) ∧
    make_request m (HttpOutcome.raised msg) =
      make_request m (HttpOutcome.reply 500 (RespContent.json [("error", msg)])) ∧
    (∀ m2, supportedMethod m2 = false →
      make_request m2 o = (500, [("error", unsupportedErr m2)])) := by
  refine ⟨?_, ?_, ?_, ?_, ?_, ?_⟩
  · simp [make_request, hm]
  · simp [make_request, hm]
  · simp [make_request, hm]
  · simp [make_request, hm]
  · simp [make_request, hm]
  · intro m2 hm2
    simp [make_request, hm2]

/-- Claim C10 witness: a GET whose call raises, and a request with an
unsupported method. -/
theorem C10_make_request_total_witness :
    make_request "GET" (HttpOutcome.raised "Connection refused") =
      (500, [("error", "Connection refused")]) ∧
    make_request "PATCH" (HttpOutcome.raised "x") =
      (500, [("error", unsupportedErr "PATCH")]) := by
  have h := C10_make_request_total "GET" "Connection refused" "r" 200 []
    (HttpOutcome.raised "x") (by decide)
  exact ⟨h.1, h.2.2.2.2.2 "PATCH" (by decide)⟩

end Mcp
